import Mathlib

/-!
Verification of the lukso-relayer core (src/handlers/v1/transaction.ts and the
older handler variant) against its natural-language specification.

The persistent store (tables `universal_profiles`, `quotas`, `approved_quotas`,
`transactions`) is modelled as lists of records.  Database operations are
translated into pure state-passing functions; a `db.tx` block is atomic, so a
failing block is modelled as an `Except.error` that carries no updated store
(rollback), while a successful block returns the updated store.  Gas columns
are `INT` in the migrations and JavaScript numbers in the handlers; they are
modelled as `Int`.
-/

/-- Lifecycle states of a transaction row.  The handler only ever inserts
`PENDING`; terminal states are reached by the external settlement path. -/
inductive TxStatus where
  | PENDING
  | CONFIRMED
  | FAILED
deriving Repr, DecidableEq, BEq

/-- Errors surfaced by the handlers.  `argumentError` and `noGasError` mirror
the `ArgumentError` and `NoGasError` classes of the source (`NoGasError` is the
spec's `QuotaExceeded`); `uniqueViolation` is the storage-layer failure raised
when the `UNIQUE (nonce, channel_id, signer_address)` constraint of
`0005_transactions.sql` is violated (the spec's `DuplicateAuthorization`);
`unauthorized` is the failure of the external `checkSignerPermissions`
predicate (spec section 4.1, consumed as an interface); `typeError` is a
JavaScript runtime error from dereferencing a null row; `generic` covers the
remaining thrown strings. -/
inductive RelayerError where
  | argumentError (msg : String)
  | noGasError (msg : String)
  | uniqueViolation
  | unauthorized
  | typeError
  | generic (msg : String)
deriving Repr, DecidableEq, BEq

/-- Row of the `quotas` table: a profile's own monthly allowance and usage.
Fields are the columns the handlers read (`id`, `universal_profile_address`,
`monthly_gas`, `gas_used`); timestamps are not modelled. -/
structure Quota where
  id : Nat
  universal_profile_address : String
  monthly_gas : Int
  gas_used : Int
deriving Repr, DecidableEq, BEq

/-- Row of the `approved_quotas` table: a delegation by `approver_address`
covering calls made by `approved_address`, with its own allowance/usage. -/
structure ApprovedQuota where
  id : Nat
  approver_address : String
  approved_address : String
  monthly_gas : Int
  gas_used : Int
deriving Repr, DecidableEq, BEq

/-- Row of the `transactions` table (migration `0005_transactions.sql`),
restricted to the columns the handlers write and read. -/
structure Transaction where
  id : Nat
  universal_profile_address : String
  nonce : String
  signature : String
  abi : String
  channel_id : Nat
  status : TxStatus
  signer_address : String
  relayer_nonce : Nat
  relayer_address : String
  estimated_gas : Int
  gas_used : Int
  hash : String
  approved_quota_id : Option Nat
deriving Repr, DecidableEq, BEq

/-- The durable store: the four tables the handlers touch. -/
structure Store where
  universal_profiles : List String
  quotas : List Quota
  approved_quotas : List ApprovedQuota
  transactions : List Transaction
deriving Repr, DecidableEq, BEq

/-- SELECT * FROM quotas WHERE universal_profile_address = addr (oneOrNone;
`universal_profile_address` is UNIQUE, so the first match is the row). -/
def findQuota (qs : List Quota) (addr : String) : Option Quota :=
  qs.find? (fun q => q.universal_profile_address == addr)

/-- SELECT * FROM approved_quotas WHERE approved_address = addr, in stored
order. -/
def delegationsTo (s : Store) (addr : String) : List ApprovedQuota :=
  s.approved_quotas.filter (fun a => a.approved_address == addr)

/-- Fresh id for an inserted quota row (SERIAL column: larger than every
existing id). -/
def nextQuotaId (qs : List Quota) : Nat :=
  qs.foldl (fun m q => max m (q.id + 1)) 0

/-- Fresh id for an inserted transaction row. -/
def nextTransactionId (ts : List Transaction) : Nat :=
  ts.foldl (fun m t => max m (t.id + 1)) 0

/-- Lazy initialisation shared by `ensureRemainingQuota` (transaction.ts lines
301-318) and the `quota` handler (lines 174-192): insert the universal profile
row if absent, then insert a quota row with `monthly_gas = 650000`,
`gas_used = 0`, and return it. -/
def lazyCreateQuota (s : Store) (addr : String) : Store × Quota :=
  let s1 :=
    if s.universal_profiles.contains addr then s
    else { s with universal_profiles := s.universal_profiles ++ [addr] }
  let q : Quota :=
    { id := nextQuotaId s1.quotas, universal_profile_address := addr,
      monthly_gas := 650000, gas_used := 0 }
  ({ s1 with quotas := s1.quotas ++ [q] }, q)

/-- The `for` loop of `ensureRemainingQuota` (transaction.ts lines 331-343).
`cur` is the mutable variable `quota`: the loop either skips a delegation that
cannot itself cover the call, or loads the approver's quota row — a missing
row makes the subsequent `quota.gas_used` dereference throw a runtime
`TypeError` — and breaks when that quota has headroom, otherwise keeps the
loaded row in `cur` and continues. -/
def scanApproved (s : Store) (g : Int) (cur : Quota) :
    List ApprovedQuota → Except RelayerError Quota
  | [] => Except.ok cur
  | aq :: rest =>
    if aq.gas_used + g ≥ aq.monthly_gas then scanApproved s g cur rest
    else
      match findQuota s.quotas aq.approver_address with
      | none => Except.error RelayerError.typeError
      | some p =>
        if p.gas_used + g ≤ p.monthly_gas then Except.ok p
        else scanApproved s g p rest

/-- `ensureRemainingQuota` (transaction.ts lines 290-350): the quota resolver.
Runs in a `db.task`; its only mutation (lazy creation) happens on a path that
returns immediately, so errors carry no state.  The post-loop `if (!quota)`
check of the source is unreachable (the loop variable is never null when the
loop exits) and is not modelled. -/
def ensureRemainingQuota (s : Store) (g : Int) (addr : String) :
    Except RelayerError (Store × Quota) :=
  match findQuota s.quotas addr with
  | none => Except.ok (lazyCreateQuota s addr)
  | some quota =>
    if quota.gas_used + g ≤ quota.monthly_gas then Except.ok (s, quota)
    else
      let approvedQuotas := delegationsTo s addr
      if approvedQuotas.isEmpty then
        Except.error (RelayerError.noGasError "gas limit reached")
      else
        match scanApproved s g quota approvedQuotas with
        | Except.error e => Except.error e
        | Except.ok q =>
          if q.gas_used + g > q.monthly_gas then
            Except.error (RelayerError.noGasError "gas limit reached")
          else Except.ok (s, q)

/-- SELECT the approved_quotas rows matched by the second UPDATE of
`createTransaction` (WHERE approved_address = addr AND approver_address =
approver). -/
def matchingDelegations (s : Store) (addr approver : String) : List ApprovedQuota :=
  s.approved_quotas.filter
    (fun a => a.approved_address == addr && a.approver_address == approver)

/-- `createTransaction` (transaction.ts lines 98-142).  Runs inside `db.tx`:
the two UPDATEs and the INSERT are atomic, so any failure (a `oneOrNone`
receiving several rows, or the INSERT violating
`UNIQUE (nonce, channel_id, signer_address)`) rolls the whole block back —
modelled by returning `Except.error` with no store.  The first UPDATE debits
the resolved payer quota row by id; the second debits the approved_quotas row
for (approved = profile, approver = payer's profile) when one exists. -/
def createTransaction (s : Store) (estimatedGas : Int) (quota : Quota)
    (address nonce signature abi : String) (channelId : Nat)
    (signerAddress : String) (walletNonce : Nat) (relayerAddress hash : String) :
    Except RelayerError (Store × Transaction) :=
  let quotas' := s.quotas.map (fun q =>
    if q.id == quota.id then { q with gas_used := q.gas_used + estimatedGas } else q)
  let matched := matchingDelegations s address quota.universal_profile_address
  if matched.length > 1 then Except.error (RelayerError.generic "multiple approved quotas")
  else
    let approved_quotas' := s.approved_quotas.map (fun a =>
      if a.approved_address == address && a.approver_address == quota.universal_profile_address
      then { a with gas_used := a.gas_used + estimatedGas } else a)
    let approvedQuotaId := matched.head?.map (fun a => a.id)
    if s.transactions.any (fun t =>
        t.nonce == nonce && t.channel_id == channelId && t.signer_address == signerAddress)
    then Except.error RelayerError.uniqueViolation
    else
      let tx : Transaction :=
        { id := nextTransactionId s.transactions,
          universal_profile_address := address, nonce := nonce,
          signature := signature, abi := abi, channel_id := channelId,
          status := TxStatus.PENDING, signer_address := signerAddress,
          relayer_nonce := walletNonce, relayer_address := relayerAddress,
          estimated_gas := estimatedGas, gas_used := 0, hash := hash,
          approved_quota_id := approvedQuotaId }
      Except.ok
        ({ s with quotas := quotas', approved_quotas := approved_quotas',
                  transactions := s.transactions ++ [tx] }, tx)

/-- `createTransaction` with the rollback made explicit in the result: a
failing `db.tx` block leaves the store as it was. -/
def runCreateTransaction (s : Store) (estimatedGas : Int) (quota : Quota)
    (address nonce signature abi : String) (channelId : Nat)
    (signerAddress : String) (walletNonce : Nat) (relayerAddress hash : String) :
    Store × Except RelayerError Transaction :=
  match createTransaction s estimatedGas quota address nonce signature abi
      channelId signerAddress walletNonce relayerAddress hash with
  | Except.ok (s', tx) => (s', Except.ok tx)
  | Except.error e => (s, Except.error e)

/-- Row predicate of the relayer-nonce query: `relayer_address = relayer AND
status = 'PENDING'`. -/
def isPendingFor (relayer : String) (t : Transaction) : Bool :=
  t.relayer_address == relayer && t.status == TxStatus.PENDING

/-- WHERE clause of the relayer-nonce query: the pending rows of this
relayer, in stored order. -/
def pendingFor (txs : List Transaction) (relayer : String) : List Transaction :=
  txs.filter (isPendingFor relayer)

/-- Lexicographic comparison of character lists by code point: the order a
text collation applies to digit strings. -/
def charListLt : List Char → List Char → Bool
  | [], [] => false
  | [], _ :: _ => true
  | _ :: _, [] => false
  | a :: as, b :: bs => if a < b then true else if b < a then false else charListLt as bs

/-- Lexicographic string comparison by code point. -/
def lexLt (a b : String) : Bool := charListLt a.data b.data

/-- Accumulator step realising ORDER BY relayer_nonce DESC LIMIT 1.  The
`relayer_nonce` column is `VARCHAR(100)` (0005_transactions.sql line 11) and
each row holds the decimal representation of the number the handler inserted,
so the ordering this query applies is lexicographic on that string, not
numeric: keep the row whose decimal string is lexicographically larger. -/
def pickLatest (acc : Option Transaction) (t : Transaction) : Option Transaction :=
  match acc with
  | none => some t
  | some b =>
    if lexLt (toString b.relayer_nonce) (toString t.relayer_nonce) then some t else some b

/-- ORDER BY relayer_nonce DESC LIMIT 1 over the pending rows of this
relayer, under the column's VARCHAR collation. -/
def latestPending (txs : List Transaction) (relayer : String) : Option Transaction :=
  (pendingFor txs relayer).foldl pickLatest none

/-- Relay sequencer (older handler, src/unnamed/part_001 lines 62-72; the
newer handler reaches the same logic through `getWalletNonce`):
`Number(latestPending.relayer_nonce) + 1` when a pending transaction exists
for this relayer — `Number` applied to the stored decimal string recovers the
inserted value — else the wallet's on-chain transaction count. -/
def nextRelayerNonce (txs : List Transaction) (relayer : String)
    (onChainCount : Nat) : Nat :=
  match latestPending txs relayer with
  | some t => t.relayer_nonce + 1
  | none => onChainCount

/-- `extractChannelId` (transaction.ts lines 352-355):
`BigNumber.from(nonce).shr(128).toNumber()`.  `shr 128` is division by
`2 ^ 128`; `toNumber` throws once the result leaves the JavaScript safe
integer range, modelled as `none`. -/
def extractChannelId (nonce : Nat) : Option Nat :=
  let c := nonce >>> 128
  if c < 2 ^ 53 then some c else none

/-- Characterisation used to state the corrected C1: the payer produced by the
delegation branch is the approver quota of the first delegation, in stored
order, that is not skipped (`delegation.used + g < delegation.allowance`) and
whose approver quota has headroom; a reached delegation whose approver has no
quota row yields the runtime `typeError`; exhaustion yields `QuotaExceeded`. -/
def firstUsableDelegationPayer (s : Store) (g : Int) :
    List ApprovedQuota → Except RelayerError Quota
  | [] => Except.error (RelayerError.noGasError "gas limit reached")
  | aq :: rest =>
    if aq.gas_used + g ≥ aq.monthly_gas then firstUsableDelegationPayer s g rest
    else
      match findQuota s.quotas aq.approver_address with
      | none => Except.error RelayerError.typeError
      | some p =>
        if p.gas_used + g ≤ p.monthly_gas then Except.ok p
        else firstUsableDelegationPayer s g rest

/-- Aggregation loop of the `quota` handler (transaction.ts lines 212-236):
starting from the profile's own (`monthly_gas`, `gas_used`), fold over the
delegations granted to the profile.  A delegation whose approver quota is not
among `parents`, or whose approver has `gas_used ≥ monthly_gas`, is skipped
entirely; otherwise the total grows by the full delegation allowance when the
approver's remaining gas covers the delegation's remaining gas, else by the
approver's remaining gas, and the used figure grows by the delegation's
`gas_used`. -/
def quotaAggStep (parents : List Quota) (acc : Int × Int) (aQuota : ApprovedQuota) : Int × Int :=
  match parents.find? (fun p => p.universal_profile_address == aQuota.approver_address) with
  | none => acc
  | some parentQuota =>
    if parentQuota.gas_used ≥ parentQuota.monthly_gas then acc
    else
      let parentGasRemaining := parentQuota.monthly_gas - parentQuota.gas_used
      let approvedGasRemaining := aQuota.monthly_gas - aQuota.gas_used
      if parentGasRemaining ≥ approvedGasRemaining then
        (acc.1 + aQuota.monthly_gas, acc.2 + aQuota.gas_used)
      else
        (acc.1 + parentGasRemaining, acc.2 + aQuota.gas_used)

/-- The fold of the aggregation loop, starting from the profile's own
allowance and usage. -/
def computeAvailableQuota (own : Quota) (aqs : List ApprovedQuota)
    (parents : List Quota) : Int × Int :=
  aqs.foldl (quotaAggStep parents) (own.monthly_gas, own.gas_used)

/-- Formalisation of the spec's aggregation formula (section 4.3), for
comparison with `computeAvailableQuota`: total adds, per delegation, the
lesser of the delegation's allowance and the approver's remaining headroom;
used adds every delegation's `gas_used`. -/
def specAvailableQuota (own : Quota) (aqs : List ApprovedQuota)
    (parents : List Quota) : Int × Int :=
  (own.monthly_gas +
     (aqs.map (fun aq =>
        match parents.find? (fun p => p.universal_profile_address == aq.approver_address) with
        | none => 0
        | some p => min aq.monthly_gas (p.monthly_gas - p.gas_used))).sum,
   own.gas_used + (aqs.map (fun aq => aq.gas_used)).sum)

/-- Per-delegation contribution to the reported total, as the code computes
it (used to state the corrected C4 in closed form). -/
def codeTotalContribution (parents : List Quota) (aq : ApprovedQuota) : Int :=
  match parents.find? (fun p => p.universal_profile_address == aq.approver_address) with
  | none => 0
  | some p =>
    if p.gas_used ≥ p.monthly_gas then 0
    else if p.monthly_gas - p.gas_used ≥ aq.monthly_gas - aq.gas_used then aq.monthly_gas
    else p.monthly_gas - p.gas_used

/-- Per-delegation contribution to the reported used figure, as the code
computes it. -/
def codeUsedContribution (parents : List Quota) (aq : ApprovedQuota) : Int :=
  match parents.find? (fun p => p.universal_profile_address == aq.approver_address) with
  | none => 0
  | some p => if p.gas_used ≥ p.monthly_gas then 0 else aq.gas_used

/-- `validateQuotaParams` (transaction.ts lines 277-288).  `none` models a
missing (`undefined`) request field. -/
def validateQuotaParams (address : Option String) (timestamp : Option Int)
    (signature : Option String) : Except RelayerError Unit :=
  if address = none ∨ address = some "" then
    Except.error (RelayerError.argumentError "address must be present")
  else if timestamp = none ∨ timestamp = some 0 then
    Except.error (RelayerError.argumentError "timestamp must be present")
  else if signature = none ∨ signature = some "" then
    Except.error (RelayerError.argumentError "signature must be present")
  else Except.ok ()

/-- External collaborators of the `quota` handler: the result of
`ethers.utils.verifyMessage` (none models a throw on an unrecoverable
signature) and the external permission predicate of `checkSignerPermissions`.
Modelled from the spec: `checkSignerPermissions` lives in `src/utils`, which
is not part of the sources; per spec sections 4.1 and 6 it is the boolean
capability `hasPermission(profile, signer)` and its failure is
`Unauthorized`. -/
structure QuotaEnv where
  recovered : Option String
  hasPermission : String → String → Bool

/-- The `quota` handler (transaction.ts lines 144-259), up to the response
payload `(gas used, total quota)`.  State is threaded through the result so
that the store after a failure is visible: every throw in the handler happens
either before the `db.task` or inside a read-only portion of it, so failures
leave the store untouched, while the success path may lazily create the
profile's quota row. -/
def quotaOp (s : Store) (now : Int) (address : Option String)
    (timestamp : Option Int) (signature : Option String) (env : QuotaEnv) :
    Store × Except RelayerError (Int × Int) :=
  match validateQuotaParams address timestamp signature with
  | Except.error e => (s, Except.error e)
  | Except.ok _ =>
    match address, timestamp, signature with
    | some addr, some ts, some _sg =>
      let timeDiff := now - ts
      if timeDiff > 5000 ∨ timeDiff < -5000 then
        (s, Except.error (RelayerError.argumentError "timestamp must be +/- 5 seconds"))
      else
        match env.recovered with
        | none => (s, Except.error (RelayerError.generic "failed to get quota"))
        | some signer =>
          if env.hasPermission addr signer then
            let step := match findQuota s.quotas addr with
              | some q => (s, q)
              | none => lazyCreateQuota s addr
            let s1 := step.1
            let own := step.2
            let aqs := delegationsTo s1 addr
            let approverAddrs := aqs.map (fun a => a.approver_address)
            let parents := s1.quotas.filter
              (fun q => approverAddrs.contains q.universal_profile_address)
            let agg := computeAvailableQuota own aqs parents
            (s1, Except.ok (agg.2, agg.1))
          else (s, Except.error RelayerError.unauthorized)
    | _, _, _ => (s, Except.error (RelayerError.generic "failed to get quota"))

/-- `validateExecuteParams` (transaction.ts lines 261-275). -/
def validateExecuteParams (address nonce abi sig : Option String) :
    Except RelayerError Unit :=
  if address = none ∨ address = some "" then
    Except.error (RelayerError.argumentError "address must be present")
  else if nonce = none ∨ nonce = some "" then
    Except.error (RelayerError.argumentError "nonce must be present")
  else if abi = none ∨ abi = some "" then
    Except.error (RelayerError.argumentError "abi must be present")
  else if sig = none ∨ sig = some "" then
    Except.error (RelayerError.argumentError "signature must be present")
  else Except.ok ()

/-- External collaborators of the `execute` handler, per spec section 6:
signer recovery (`getSignerAddress`, may fail), the permission predicate
(modelled from the spec, as in `QuotaEnv`), gas estimation (may fail; note the
handler treats an estimate of 0 as falsy and rejects it), the parsed numeric
value of the nonce string (`BigNumber.from` may throw), the wallet's on-chain
transaction count, the relayer wallet address, and the settlement hash from
`calcHash`. -/
structure ExecEnv where
  recovered : Option String
  hasPermission : String → String → Bool
  estimatedGas : Option Int
  nonceValue : Option Nat
  onChainCount : Nat
  walletAddress : String
  hash : String

/-- The `execute` handler (transaction.ts lines 41-96): validation, signer
recovery, permission check, gas estimation, quota resolution, channel
extraction, relayer-nonce computation, then the atomic debit + insert.  State
is threaded through failures: only `ensureRemainingQuota`'s lazy creation and
`createTransaction`'s atomic block change the store, and each later failure
keeps the store produced so far. -/
def execute (s : Store) (env : ExecEnv) (address nonce abi signature : Option String) :
    Store × Except RelayerError String :=
  match validateExecuteParams address nonce abi signature with
  | Except.error e => (s, Except.error e)
  | Except.ok _ =>
    match address, nonce, abi, signature with
    | some addr, some nc, some ab, some sg =>
      match env.recovered with
      | none => (s, Except.error (RelayerError.generic "Failed to execute"))
      | some signer =>
        if env.hasPermission addr signer then
          match env.estimatedGas with
          | none => (s, Except.error (RelayerError.generic "could not estimate gas"))
          | some g =>
            if g == 0 then (s, Except.error (RelayerError.generic "could not estimate gas"))
            else
              match ensureRemainingQuota s g addr with
              | Except.error e => (s, Except.error e)
              | Except.ok (s1, payer) =>
                match env.nonceValue with
                | none => (s1, Except.error (RelayerError.generic "Failed to execute"))
                | some nv =>
                  match extractChannelId nv with
                  | none => (s1, Except.error (RelayerError.generic "Failed to execute"))
                  | some ch =>
                    let wn := nextRelayerNonce s1.transactions env.walletAddress env.onChainCount
                    match createTransaction s1 g payer addr nc sg ab ch signer wn
                        env.walletAddress env.hash with
                    | Except.error e => (s1, Except.error e)
                    | Except.ok (s2, _tx) => (s2, Except.ok env.hash)
        else (s, Except.error RelayerError.unauthorized)
    | _, _, _, _ => (s, Except.error (RelayerError.generic "Failed to execute"))

/-- Bool-valued statement-side predicate for C10: the delegation scan, run on
this list, reaches a delegation that is not skipped and whose approver has no
quota row (every earlier delegation was either skipped or had an approver
quota without headroom). -/
def scanHitsMissingApprover (s : Store) (g : Int) : List ApprovedQuota → Bool
  | [] => false
  | aq :: rest =>
    if aq.gas_used + g ≥ aq.monthly_gas then scanHitsMissingApprover s g rest
    else
      match findQuota s.quotas aq.approver_address with
      | none => true
      | some p =>
        if p.gas_used + g ≤ p.monthly_gas then false
        else scanHitsMissingApprover s g rest

/-- The empty store: no profiles, quotas, delegations or transactions. -/
def emptyStore : Store :=
  { universal_profiles := [], quotas := [], approved_quotas := [], transactions := [] }

/-- Concrete store of spec section 8's delegation example: profile B has
exhausted its own quota (100/100), holds one delegation from A (allowance 50,
used 10), and A's own quota is 200/190. -/
def sStore1 : Store :=
  { universal_profiles := ["B", "A"],
    quotas := [ { id := 1, universal_profile_address := "A", monthly_gas := 200, gas_used := 190 },
                { id := 2, universal_profile_address := "B", monthly_gas := 100, gas_used := 100 } ],
    approved_quotas := [ { id := 7, approver_address := "A", approved_address := "B",
                           monthly_gas := 50, gas_used := 10 } ],
    transactions := [] }

/-- The approver quota row of `sStore1`. -/
def sQA : Quota := { id := 1, universal_profile_address := "A", monthly_gas := 200, gas_used := 190 }

/-- The exhausted own quota row of `sStore1`. -/
def sQB : Quota := { id := 2, universal_profile_address := "B", monthly_gas := 100, gas_used := 100 }

/-- The quota row lazily created for profile "P" on an empty store. -/
def freshQuotaP : Quota :=
  { id := 0, universal_profile_address := "P", monthly_gas := 650000, gas_used := 0 }

lemma scanApproved_firstUsable (s : Store) (g : Int) :
    ∀ (l : List ApprovedQuota) (cur : Quota), ¬(cur.gas_used + g ≤ cur.monthly_gas) →
      (match scanApproved s g cur l with
       | Except.error e => Except.error e
       | Except.ok q =>
         if q.gas_used + g > q.monthly_gas then
           Except.error (RelayerError.noGasError "gas limit reached")
         else Except.ok (s, q)) =
      (firstUsableDelegationPayer s g l).map (fun p => (s, p)) := by
  intro l
  induction l with
  | nil =>
    intro cur h
    simp only [scanApproved, firstUsableDelegationPayer, Except.map]
    rw [if_pos (not_le.mp h)]
  | cons aq rest ih =>
    intro cur h
    simp only [scanApproved, firstUsableDelegationPayer]
    by_cases h1 : aq.gas_used + g ≥ aq.monthly_gas
    · rw [if_pos h1, if_pos h1]
      exact ih cur h
    · rw [if_neg h1, if_neg h1]
      cases hf : findQuota s.quotas aq.approver_address with
      | none => rfl
      | some p =>
        dsimp only
        by_cases h2 : p.gas_used + g ≤ p.monthly_gas
        · rw [if_pos h2, if_pos h2]
          dsimp only
          rw [if_neg (not_lt.mpr h2)]
          rfl
        · rw [if_neg h2, if_neg h2]
          exact ih p h2

/-- C1 (amended): with an existing quota row, the profile's own quota pays
exactly when it has headroom for the estimate; otherwise the payer is the
approver quota of the first delegation, in stored order, that is not skipped
and whose approver quota has headroom, with `QuotaExceeded` when no delegation
exists or none qualifies (and a generic runtime failure when a reached
delegation's approver has no quota row).  When no quota row exists, a fresh
quota (used 0, allowance 650000) is created and returned unconditionally,
without the headroom check. -/
theorem ensureRemainingQuota_characterised (s : Store) (g : Int) (addr : String) :
    (findQuota s.quotas addr = none →
       ensureRemainingQuota s g addr = Except.ok (lazyCreateQuota s addr) ∧
       (lazyCreateQuota s addr).2.gas_used = 0 ∧
       (lazyCreateQuota s addr).2.monthly_gas = 650000) ∧
    (∀ q, findQuota s.quotas addr = some q →
       (q.gas_used + g ≤ q.monthly_gas → ensureRemainingQuota s g addr = Except.ok (s, q)) ∧
       (¬(q.gas_used + g ≤ q.monthly_gas) →
          ensureRemainingQuota s g addr =
            (firstUsableDelegationPayer s g (delegationsTo s addr)).map (fun p => (s, p)))) := by
  constructor
  · intro h
    refine ⟨?_, rfl, rfl⟩
    simp only [ensureRemainingQuota, h]
  · intro q hq
    constructor
    · intro hle
      simp only [ensureRemainingQuota, hq]
      rw [if_pos hle]
    · intro hgt
      simp only [ensureRemainingQuota, hq]
      rw [if_neg hgt]
      cases hl : delegationsTo s addr with
      | nil => rfl
      | cons a t =>
        simp only [List.isEmpty_cons, Bool.false_eq_true, if_false]
        exact scanApproved_firstUsable s g (a :: t) q hgt

/-- C1 witness: on `sStore1` with estimate 5, profile B's own quota is
exhausted and the delegation from A is selected, so A's quota row is the
payer. -/
theorem ensureRemainingQuota_characterised_witness :
    ensureRemainingQuota sStore1 5 "B" = Except.ok (sStore1, sQA) := by
  have h := ((ensureRemainingQuota_characterised sStore1 5 "B").2 sQB rfl).2 (by decide)
  rw [h]
  rfl

/-- C1 counterexample: on the empty store with estimate 650001, the lazily
created quota for "P" is returned as payer even though
`used + estimatedGas ≤ monthly_allowance` fails for it, contradicting the
claimed "exactly when". -/
theorem lazy_quota_skips_headroom_check :
    ensureRemainingQuota emptyStore 650001 "P" =
      Except.ok ({ universal_profiles := ["P"], quotas := [freshQuotaP],
                   approved_quotas := [], transactions := [] }, freshQuotaP) ∧
    ¬(freshQuotaP.gas_used + 650001 ≤ freshQuotaP.monthly_gas) :=
  ⟨rfl, by decide⟩

/-- Pending transactions exhibiting the C3 failing input: relayer "R" has
pending rows with relayer nonces 9 and 10 (stored as the VARCHAR strings "9"
and "10"). -/
def bugTxs : List Transaction :=
  [ { id := 1, universal_profile_address := "B", nonce := "n1", signature := "s1", abi := "a1",
      channel_id := 0, status := TxStatus.PENDING, signer_address := "S", relayer_nonce := 9,
      relayer_address := "R", estimated_gas := 1, gas_used := 0, hash := "h1", approved_quota_id := none },
    { id := 2, universal_profile_address := "B", nonce := "n2", signature := "s2", abi := "a2",
      channel_id := 0, status := TxStatus.PENDING, signer_address := "S", relayer_nonce := 10,
      relayer_address := "R", estimated_gas := 1, gas_used := 0, hash := "h2", approved_quota_id := none } ]

/-- C3: with pending relayer nonces 9 and 10, ORDER BY on the VARCHAR
`relayer_nonce` column is lexicographic, so the query returns the row holding
"9" and the handler assigns `Number("9") + 1 = 10` — not the claimed numeric
maximum plus one, 11 — and the assigned nonce 10 is already held by a pending
row of the same relayer, violating the gap-free no-reuse contract the
sequencer exists to provide. -/
theorem nextRelayerNonce_varchar_ordering_bug :
    nextRelayerNonce bugTxs "R" 0 = 10 ∧
    (pendingFor bugTxs "R").map (fun t => t.relayer_nonce) = [9, 10] ∧
    nextRelayerNonce bugTxs "R" 0 ≠ 10 + 1 ∧
    nextRelayerNonce bugTxs "R" 0 ∈ (pendingFor bugTxs "R").map (fun t => t.relayer_nonce) :=
  ⟨rfl, rfl, by decide, by decide⟩

/-- C9: channel extraction is the pure 128-bit right shift of the 256-bit call
nonce, `channel_id = call_nonce >> 128` (within the range `toNumber` accepts);
in particular `(2 <<< 128) ||| 1` yields channel 2. -/
theorem extractChannelId_shift :
    (∀ n : Nat, n >>> 128 < 2 ^ 53 → extractChannelId n = some (n / 2 ^ 128)) ∧
    extractChannelId (2 * 2 ^ 128 + 1) = some 2 := by
  constructor
  · intro n h
    simp only [extractChannelId]
    rw [if_pos h, Nat.shiftRight_eq_div_pow]
  · rfl

/-- C9 witness: a nonce with channel bits 5 and low bits 99 extracts to
channel 5. -/
theorem extractChannelId_shift_witness :
    extractChannelId (5 * 2 ^ 128 + 99) = some ((5 * 2 ^ 128 + 99) / 2 ^ 128) :=
  extractChannelId_shift.1 (5 * 2 ^ 128 + 99) (by norm_num [Nat.shiftRight_eq_div_pow])

lemma createTransaction_ok (s s' : Store) (g : Int) (payer : Quota)
    (address nonce sg ab : String) (ch : Nat) (signer : String) (wn : Nat)
    (rel hh : String) (tx : Transaction)
    (h : createTransaction s g payer address nonce sg ab ch signer wn rel hh =
          Except.ok (s', tx)) :
    s'.universal_profiles = s.universal_profiles ∧
    s'.quotas = s.quotas.map (fun q =>
      if q.id == payer.id then { q with gas_used := q.gas_used + g } else q) ∧
    s'.approved_quotas = s.approved_quotas.map (fun a =>
      if a.approved_address == address && a.approver_address == payer.universal_profile_address
      then { a with gas_used := a.gas_used + g } else a) ∧
    s'.transactions = s.transactions ++ [tx] ∧
    tx.nonce = nonce ∧ tx.channel_id = ch ∧ tx.signer_address = signer ∧
    tx.status = TxStatus.PENDING ∧ tx.relayer_nonce = wn ∧
    tx.relayer_address = rel ∧ tx.estimated_gas = g := by
  simp only [createTransaction] at h
  by_cases h1 : (matchingDelegations s address payer.universal_profile_address).length > 1
  · rw [if_pos h1] at h
    cases h
  · rw [if_neg h1] at h
    by_cases h2 : s.transactions.any (fun t =>
        t.nonce == nonce && t.channel_id == ch && t.signer_address == signer) = true
    · rw [if_pos h2] at h
      cases h
    · rw [if_neg h2] at h
      rw [Except.ok.injEq, Prod.mk.injEq] at h
      obtain ⟨hs, ht⟩ := h
      subst hs
      subst ht
      exact ⟨rfl, rfl, rfl, rfl, rfl, rfl, rfl, rfl, rfl, rfl, rfl⟩

/-- C2: a second `createTransaction` with the same
`(call_nonce, channel_id, signer_address)` triple as an already inserted
transaction fails with the unique-constraint violation (the spec's
`DuplicateAuthorization`) regardless of the other arguments, and the atomic
`db.tx` rolls the second call's debit back, leaving the store exactly as it
was after the first call alone. -/
theorem createTransaction_replay (s s1 : Store) (tx1 : Transaction)
    (g g' : Int) (payer payer' : Quota) (addr nonce sg ab : String) (ch : Nat)
    (signer : String) (wn : Nat) (rel hh : String)
    (addr' sg' ab' : String) (wn' : Nat) (rel' hh' : String)
    (h1 : createTransaction s g payer addr nonce sg ab ch signer wn rel hh =
            Except.ok (s1, tx1))
    (hsingle : (matchingDelegations s1 addr' payer'.universal_profile_address).length ≤ 1) :
    runCreateTransaction s1 g' payer' addr' nonce sg' ab' ch signer wn' rel' hh' =
      (s1, Except.error RelayerError.uniqueViolation) := by
  obtain ⟨-, -, -, htr, hnonce, hch, hsigner, -⟩ :=
    createTransaction_ok s s1 g payer addr nonce sg ab ch signer wn rel hh tx1 h1
  have hany : s1.transactions.any (fun t =>
      t.nonce == nonce && t.channel_id == ch && t.signer_address == signer) = true := by
    rw [htr]
    simp [List.any_append, hnonce, hch, hsigner]
  have h2 : createTransaction s1 g' payer' addr' nonce sg' ab' ch signer wn' rel' hh' =
      Except.error RelayerError.uniqueViolation := by
    simp only [createTransaction]
    rw [if_neg (by omega), if_pos hany]
  simp only [runCreateTransaction, h2]

/-- Store before the C2 witness run: profile B with an empty quota, nothing
else. -/
def c2Store : Store :=
  { universal_profiles := ["B"],
    quotas := [ { id := 1, universal_profile_address := "B", monthly_gas := 100, gas_used := 0 } ],
    approved_quotas := [], transactions := [] }

/-- Payer row used by both C2 witness calls. -/
def c2Payer : Quota := { id := 1, universal_profile_address := "B", monthly_gas := 100, gas_used := 0 }

/-- The transaction row inserted by the first C2 witness call. -/
def c2Tx1 : Transaction :=
  { id := 0, universal_profile_address := "B", nonce := "n1", signature := "sg1", abi := "ab1",
    channel_id := 2, status := TxStatus.PENDING, signer_address := "S", relayer_nonce := 4,
    relayer_address := "R", estimated_gas := 5, gas_used := 0, hash := "h1",
    approved_quota_id := none }

/-- Store after the first C2 witness call: the payer debited by 5 and the
transaction row inserted. -/
def c2Store1 : Store :=
  { universal_profiles := ["B"],
    quotas := [ { id := 1, universal_profile_address := "B", monthly_gas := 100, gas_used := 5 } ],
    approved_quotas := [], transactions := [c2Tx1] }

/-- C2 witness: the first call with triple ("n1", 2, "S") succeeds; the second
call with the same triple but different gas, signature, abi, nonce and hash
arguments fails with the unique violation and leaves the store unchanged. -/
theorem createTransaction_replay_witness :
    runCreateTransaction c2Store1 7 c2Payer "B" "n1" "sg2" "ab2" 2 "S" 9 "R" "h2" =
      (c2Store1, Except.error RelayerError.uniqueViolation) :=
  createTransaction_replay c2Store c2Store1 c2Tx1 5 7 c2Payer c2Payer "B" "n1" "sg1" "ab1" 2
    "S" 4 "R" "h1" "B" "sg2" "ab2" 9 "R" "h2" rfl (by decide)

/-- C5 (amended): a successful `createTransaction` increases the used counter
of the payer quota row selected by the resolver and of the delegation row
matching (approved = profile, approver = payer's profile) when one exists,
both by `estimatedGas`; every other quota row and delegation row is unchanged,
and exactly the new PENDING row is appended to the transactions. -/
theorem createTransaction_frame (s s' : Store) (g : Int) (payer : Quota)
    (address nonce sg ab : String) (ch : Nat) (signer : String) (wn : Nat)
    (rel hh : String) (tx : Transaction)
    (h : createTransaction s g payer address nonce sg ab ch signer wn rel hh =
          Except.ok (s', tx)) :
    (∀ q ∈ s.quotas, q.id ≠ payer.id → q ∈ s'.quotas) ∧
    (∀ q ∈ s.quotas, q.id = payer.id → { q with gas_used := q.gas_used + g } ∈ s'.quotas) ∧
    (∀ a ∈ s.approved_quotas,
        ¬(a.approved_address = address ∧ a.approver_address = payer.universal_profile_address) →
        a ∈ s'.approved_quotas) ∧
    (∀ a ∈ s.approved_quotas, a.approved_address = address →
        a.approver_address = payer.universal_profile_address →
        { a with gas_used := a.gas_used + g } ∈ s'.approved_quotas) ∧
    s'.transactions = s.transactions ++ [tx] ∧
    s'.universal_profiles = s.universal_profiles := by
  obtain ⟨hup, hquotas, happr, htr, -⟩ :=
    createTransaction_ok s s' g payer address nonce sg ab ch signer wn rel hh tx h
  refine ⟨?_, ?_, ?_, ?_, htr, hup⟩
  · intro q hq hne
    rw [hquotas]
    have he : (fun q => if q.id == payer.id then { q with gas_used := q.gas_used + g } else q) q = q := by
      simp [hne]
    exact he ▸ List.mem_map_of_mem _ hq
  · intro q hq heq
    rw [hquotas]
    have he : (fun q => if q.id == payer.id then { q with gas_used := q.gas_used + g } else q) q =
        { q with gas_used := q.gas_used + g } := by
      simp [heq]
    exact he ▸ List.mem_map_of_mem _ hq
  · intro a ha hne
    rw [happr]
    have he : (fun a => if a.approved_address == address &&
          a.approver_address == payer.universal_profile_address
        then { a with gas_used := a.gas_used + g } else a) a = a := by
      rcases not_and_or.mp hne with hx | hx <;> simp [hx]
    exact he ▸ List.mem_map_of_mem _ ha
  · intro a ha h1 h2
    rw [happr]
    have he : (fun a => if a.approved_address == address &&
          a.approver_address == payer.universal_profile_address
        then { a with gas_used := a.gas_used + g } else a) a =
        { a with gas_used := a.gas_used + g } := by
      simp [h1, h2]
    exact he ▸ List.mem_map_of_mem _ ha

/-- The transaction row inserted by the C5 counterexample run. -/
def c5Tx : Transaction :=
  { id := 0, universal_profile_address := "B", nonce := "n1", signature := "sg", abi := "ab",
    channel_id := 0, status := TxStatus.PENDING, signer_address := "S", relayer_nonce := 3,
    relayer_address := "R", estimated_gas := 5, gas_used := 0, hash := "h",
    approved_quota_id := some 7 }

/-- Store after the C5 counterexample run: both A's quota row and the
delegation row have grown by 5. -/
def c5Store1 : Store :=
  { universal_profiles := ["B", "A"],
    quotas := [ { id := 1, universal_profile_address := "A", monthly_gas := 200, gas_used := 195 },
                { id := 2, universal_profile_address := "B", monthly_gas := 100, gas_used := 100 } ],
    approved_quotas := [ { id := 7, approver_address := "A", approved_address := "B",
                           monthly_gas := 50, gas_used := 15 } ],
    transactions := [c5Tx] }

/-- C5 counterexample: on `sStore1` the resolver selects A's quota row as
payer, and the successful `createTransaction` increases the used counter of
two rows — A's quota (190 to 195) and the delegation (10 to 15) — refuting
"exactly one row". -/
theorem createTransaction_debits_two_rows :
    ensureRemainingQuota sStore1 5 "B" = Except.ok (sStore1, sQA) ∧
    createTransaction sStore1 5 sQA "B" "n1" "sg" "ab" 0 "S" 3 "R" "h" =
      Except.ok (c5Store1, c5Tx) ∧
    sStore1.quotas.map (fun q => (q.id, q.gas_used)) = [(1, 190), (2, 100)] ∧
    c5Store1.quotas.map (fun q => (q.id, q.gas_used)) = [(1, 195), (2, 100)] ∧
    sStore1.approved_quotas.map (fun a => (a.id, a.gas_used)) = [(7, 10)] ∧
    c5Store1.approved_quotas.map (fun a => (a.id, a.gas_used)) = [(7, 15)] :=
  ⟨rfl, rfl, rfl, rfl, rfl, rfl⟩

/-- C5 witness (for the amended frame theorem): in the counterexample run,
the untouched quota row of B survives unchanged and the transactions table
grew by exactly the inserted row. -/
theorem createTransaction_frame_witness :
    sQB ∈ c5Store1.quotas ∧ c5Store1.transactions = sStore1.transactions ++ [c5Tx] := by
  have h := createTransaction_frame sStore1 c5Store1 5 sQA "B" "n1" "sg" "ab" 0 "S" 3 "R" "h"
    c5Tx rfl
  exact ⟨h.1 sQB (List.mem_cons_of_mem _ (List.mem_cons_self _ _)) (by decide), h.2.2.2.2.1⟩

lemma quotaAggStep_eq (parents : List Quota) (acc : Int × Int) (aq : ApprovedQuota) :
    quotaAggStep parents acc aq =
      (acc.1 + codeTotalContribution parents aq, acc.2 + codeUsedContribution parents aq) := by
  simp only [quotaAggStep, codeTotalContribution, codeUsedContribution]
  cases hf : parents.find? (fun p => p.universal_profile_address == aq.approver_address) with
  | none => simp
  | some p =>
    dsimp only
    by_cases h1 : p.gas_used ≥ p.monthly_gas
    · simp [h1]
    · rw [if_neg h1, if_neg h1, if_neg h1]
      by_cases h2 : p.monthly_gas - p.gas_used ≥ aq.monthly_gas - aq.gas_used
      · rw [if_pos h2, if_pos h2]
      · rw [if_neg h2, if_neg h2]

lemma foldl_quotaAggStep (parents : List Quota) :
    ∀ (aqs : List ApprovedQuota) (acc : Int × Int),
      aqs.foldl (quotaAggStep parents) acc =
        (acc.1 + (aqs.map (codeTotalContribution parents)).sum,
         acc.2 + (aqs.map (codeUsedContribution parents)).sum) := by
  intro aqs
  induction aqs with
  | nil => intro acc; simp
  | cons aq rest ih =>
    intro acc
    simp only [List.foldl_cons, List.map_cons, List.sum_cons, ih, quotaAggStep_eq]
    rw [Prod.mk.injEq]
    constructor <;> ring

/-- C4 (amended): the quota status read path reports
total = own allowance plus, per delegation granted to the profile, the full
delegation allowance when the approver's remaining headroom covers the
delegation's remaining gas, else the approver's remaining headroom — and zero
when the approver quota is absent or has no positive headroom; used = own
used plus, per delegation, its `gas_used`, except that delegations with an
absent approver quota or a headroom-less approver contribute nothing to used
either. -/
theorem computeAvailableQuota_closed_form (own : Quota) (aqs : List ApprovedQuota)
    (parents : List Quota) :
    computeAvailableQuota own aqs parents =
      (own.monthly_gas + (aqs.map (codeTotalContribution parents)).sum,
       own.gas_used + (aqs.map (codeUsedContribution parents)).sum) :=
  foldl_quotaAggStep parents aqs (own.monthly_gas, own.gas_used)

/-- Own quota of the C4 counterexample profile. -/
def c4Own : Quota :=
  { id := 1, universal_profile_address := "P", monthly_gas := 650000, gas_used := 0 }

/-- First C4 delegation: allowance 100, used 60, approver "A". -/
def c4Aq1 : ApprovedQuota :=
  { id := 11, approver_address := "A", approved_address := "P", monthly_gas := 100, gas_used := 60 }

/-- Second C4 delegation: allowance 100, used 10, approver "Bp". -/
def c4Aq2 : ApprovedQuota :=
  { id := 12, approver_address := "Bp", approved_address := "P", monthly_gas := 100, gas_used := 10 }

/-- Approver "A" of the C4 counterexample: headroom 50. -/
def c4ParentA : Quota :=
  { id := 2, universal_profile_address := "A", monthly_gas := 200, gas_used := 150 }

/-- Approver "Bp" of the C4 counterexample: zero headroom. -/
def c4ParentB : Quota :=
  { id := 3, universal_profile_address := "Bp", monthly_gas := 200, gas_used := 200 }

/-- C4 counterexample: the code reports (650100, 60) — adding the full first
delegation allowance 100 although the approver headroom is only 50, and
dropping the second delegation's used 10 because its approver has zero
headroom — while the claimed formula gives (650050, 70). -/
theorem quota_aggregation_diverges :
    computeAvailableQuota c4Own [c4Aq1, c4Aq2] [c4ParentA, c4ParentB] = (650100, 60) ∧
    specAvailableQuota c4Own [c4Aq1, c4Aq2] [c4ParentA, c4ParentB] = (650050, 70) ∧
    computeAvailableQuota c4Own [c4Aq1, c4Aq2] [c4ParentA, c4ParentB] ≠
      specAvailableQuota c4Own [c4Aq1, c4Aq2] [c4ParentA, c4ParentB] :=
  ⟨rfl, rfl, by decide⟩

lemma scanApproved_ok_source (s : Store) (g : Int) :
    ∀ (l : List ApprovedQuota) (cur p : Quota), scanApproved s g cur l = Except.ok p →
      p = cur ∨ ∃ a, findQuota s.quotas a = some p := by
  intro l
  induction l with
  | nil =>
    intro cur p h
    rw [scanApproved, Except.ok.injEq] at h
    exact Or.inl h.symm
  | cons aq rest ih =>
    intro cur p h
    rw [scanApproved] at h
    by_cases h1 : aq.gas_used + g ≥ aq.monthly_gas
    · rw [if_pos h1] at h
      exact ih cur p h
    · rw [if_neg h1] at h
      cases hf : findQuota s.quotas aq.approver_address with
      | none =>
        rw [hf] at h
        cases h
      | some q =>
        rw [hf] at h
        dsimp only at h
        by_cases h2 : q.gas_used + g ≤ q.monthly_gas
        · rw [if_pos h2, Except.ok.injEq] at h
          exact Or.inr ⟨aq.approver_address, h ▸ hf⟩
        · rw [if_neg h2] at h
          rcases ih q p h with he' | hx
          · exact Or.inr ⟨aq.approver_address, by rw [hf, he']⟩
          · exact Or.inr hx

lemma ensureRemainingQuota_ok_existing (s s1 : Store) (g : Int) (addr : String)
    (q0 payer : Quota) (hq : findQuota s.quotas addr = some q0)
    (h : ensureRemainingQuota s g addr = Except.ok (s1, payer)) :
    s1 = s ∧ payer ∈ s.quotas ∧ payer.gas_used + g ≤ payer.monthly_gas := by
  simp only [ensureRemainingQuota, hq] at h
  by_cases hle : q0.gas_used + g ≤ q0.monthly_gas
  · rw [if_pos hle, Except.ok.injEq, Prod.mk.injEq] at h
    obtain ⟨h1, h2⟩ := h
    subst h1
    subst h2
    exact ⟨rfl, List.mem_of_find?_eq_some hq, hle⟩
  · rw [if_neg hle] at h
    by_cases he : (delegationsTo s addr).isEmpty
    · rw [if_pos he] at h
      cases h
    · rw [if_neg he] at h
      cases hscan : scanApproved s g q0 (delegationsTo s addr) with
      | error e =>
        rw [hscan] at h
        cases h
      | ok q =>
        rw [hscan] at h
        dsimp only at h
        by_cases hgt : q.gas_used + g > q.monthly_gas
        · rw [if_pos hgt] at h
          cases h
        · rw [if_neg hgt, Except.ok.injEq, Prod.mk.injEq] at h
          obtain ⟨h1, h2⟩ := h
          subst h1
          rw [← h2]
          refine ⟨rfl, ?_, not_lt.mp hgt⟩
          rcases scanApproved_ok_source s g (delegationsTo s addr) q0 q hscan with he' | ⟨a, ha⟩
          · rw [he']
            exact List.mem_of_find?_eq_some hq
          · exact List.mem_of_find?_eq_some ha

/-- C6 (amended): when the profile's quota row already exists and quota
resolution and the debit run sequentially, a successful
`ensureRemainingQuota` followed by a successful `createTransaction` preserves
`gas_used ≤ monthly_gas` on every quota row (given distinct row ids).  The
code provides no transactional scope spanning the resolution reads and the
debit (`db.task` versus a separate `db.tx`), so nothing stronger than this
sequential guarantee follows, and the lazy-creation path violates even the
sequential bound. -/
theorem sequential_debit_respects_allowance (s s1 s2 : Store) (g : Int) (addr : String)
    (q0 payer : Quota) (tx : Transaction) (nonce sg ab : String) (ch : Nat)
    (signer : String) (wn : Nat) (rel hh : String)
    (hids : (s.quotas.map Quota.id).Nodup)
    (hrow : findQuota s.quotas addr = some q0)
    (hinv : ∀ q ∈ s.quotas, q.gas_used ≤ q.monthly_gas)
    (hres : ensureRemainingQuota s g addr = Except.ok (s1, payer))
    (hct : createTransaction s1 g payer addr nonce sg ab ch signer wn rel hh =
             Except.ok (s2, tx)) :
    ∀ q ∈ s2.quotas, q.gas_used ≤ q.monthly_gas := by
  obtain ⟨hs1, hmem, hbound⟩ :=
    ensureRemainingQuota_ok_existing s s1 g addr q0 payer hrow hres
  rw [hs1] at hct
  obtain ⟨-, hquotas, -⟩ :=
    createTransaction_ok s s2 g payer addr nonce sg ab ch signer wn rel hh tx hct
  intro q hq
  rw [hquotas] at hq
  obtain ⟨q', hq', hfq⟩ := List.mem_map.mp hq
  by_cases he : q'.id = payer.id
  · have hq'p : q' = payer := List.inj_on_of_nodup_map hids hq' hmem he
    subst hq'p
    simp only [beq_self_eq_true, if_pos] at hfq
    rw [← hfq]
    exact hbound
  · have hbe : (q'.id == payer.id) = false := beq_eq_false_iff_ne.mpr he
    rw [hbe] at hfq
    simp only [Bool.false_eq_true, if_false] at hfq
    exact hfq ▸ hinv q' hq'

/-- Store after lazily resolving profile "P" on the empty store. -/
def c6Store1 : Store :=
  { universal_profiles := ["P"], quotas := [freshQuotaP],
    approved_quotas := [], transactions := [] }

/-- P's quota row after the C6 counterexample debit: used 650001 of 650000. -/
def c6QuotaAfter : Quota :=
  { id := 0, universal_profile_address := "P", monthly_gas := 650000, gas_used := 650001 }

/-- Transaction inserted by the C6 counterexample run. -/
def c6Tx : Transaction :=
  { id := 0, universal_profile_address := "P", nonce := "n0", signature := "sg", abi := "ab",
    channel_id := 0, status := TxStatus.PENDING, signer_address := "S", relayer_nonce := 0,
    relayer_address := "R", estimated_gas := 650001, gas_used := 0, hash := "h",
    approved_quota_id := none }

/-- Store after the C6 counterexample run. -/
def c6Store2 : Store :=
  { universal_profiles := ["P"], quotas := [c6QuotaAfter],
    approved_quotas := [], transactions := [c6Tx] }

/-- C6 counterexample: a single sequential request on a fresh profile with
estimate 650001 resolves successfully (lazy creation returns the fresh quota
unconditionally) and the debit then leaves `gas_used = 650001` above
`monthly_gas = 650000`, refuting "Quota.used never exceeds
Quota.monthly_allowance after a successful resolvePayer/debit sequence". -/
theorem quota_overshoot_after_success :
    ensureRemainingQuota emptyStore 650001 "P" = Except.ok (c6Store1, freshQuotaP) ∧
    createTransaction c6Store1 650001 freshQuotaP "P" "n0" "sg" "ab" 0 "S" 0 "R" "h" =
      Except.ok (c6Store2, c6Tx) ∧
    findQuota c6Store2.quotas "P" = some c6QuotaAfter ∧
    c6QuotaAfter.gas_used > c6QuotaAfter.monthly_gas :=
  ⟨rfl, rfl, rfl, by decide⟩

/-- A's quota row after the C6 witness run. -/
def c6PayerAfter : Quota :=
  { id := 1, universal_profile_address := "A", monthly_gas := 200, gas_used := 195 }

/-- C6 witness: on `sStore1` (existing rows, distinct ids, invariant holding)
the sequential resolve-then-debit run keeps the debited payer row within its
allowance. -/
theorem sequential_debit_respects_allowance_witness :
    c6PayerAfter.gas_used ≤ c6PayerAfter.monthly_gas :=
  sequential_debit_respects_allowance sStore1 sStore1 c5Store1 5 "B" sQB sQA c5Tx
    "n1" "sg" "ab" 0 "S" 3 "R" "h" (by decide) rfl
    (by intro q hq; fin_cases hq <;> decide) rfl rfl
    c6PayerAfter (List.mem_cons_self _ _)

/-- C7: the quota status operation rejects a request whose signed timestamp
differs from server time by more than 5000 ms in either direction, with the
staleness `ArgumentError`, before signature verification and before touching
the store — for every recovery result and permission predicate. -/
theorem quota_stale_timestamp_rejected (s : Store) (now ts : Int) (addr sg : String)
    (env : QuotaEnv) (ha : addr ≠ "") (hs : sg ≠ "") (ht : ts ≠ 0)
    (hstale : now - ts > 5000 ∨ now - ts < -5000) :
    quotaOp s now (some addr) (some ts) (some sg) env =
      (s, Except.error (RelayerError.argumentError "timestamp must be +/- 5 seconds")) := by
  have hv : validateQuotaParams (some addr) (some ts) (some sg) = Except.ok () := by
    simp [validateQuotaParams, ha, hs, ht]
  simp only [quotaOp, hv]
  rw [if_pos hstale]

/-- C7 witness: a request 6000 ms in the past is rejected as stale on the
empty store, with a recovery oracle and permission predicate that would
otherwise accept it, and the store is unchanged. -/
theorem quota_stale_timestamp_rejected_witness :
    quotaOp emptyStore 1000000 (some "0xA") (some 994000) (some "0xSig")
      { recovered := some "0xA", hasPermission := fun _ _ => true } =
      (emptyStore, Except.error (RelayerError.argumentError "timestamp must be +/- 5 seconds")) :=
  quota_stale_timestamp_rejected emptyStore 1000000 994000 "0xA" "0xSig"
    { recovered := some "0xA", hasPermission := fun _ _ => true }
    (by decide) (by decide) (by decide) (Or.inl (by decide))

/-- C8: an `execute` request that fails parameter validation is rejected with
that `ArgumentError` and the store is unchanged; one that passes validation
but fails signer recovery or the permission predicate is likewise rejected —
generically or as `Unauthorized` — with the store unchanged.  No quota
mutation or transaction insert happens on any of these paths, because
authorization strictly precedes them. -/
theorem execute_rejects_before_any_mutation (s : Store) (env : ExecEnv)
    (a n b g4 : Option String) :
    (∀ e, validateExecuteParams a n b g4 = Except.error e →
       execute s env a n b g4 = (s, Except.error e)) ∧
    (∀ addr nc ab sg, a = some addr → n = some nc → b = some ab → g4 = some sg →
       validateExecuteParams a n b g4 = Except.ok () →
       ((env.recovered = none →
           execute s env a n b g4 = (s, Except.error (RelayerError.generic "Failed to execute"))) ∧
        (∀ signer, env.recovered = some signer → env.hasPermission addr signer = false →
           execute s env a n b g4 = (s, Except.error RelayerError.unauthorized)))) := by
  constructor
  · intro e he
    simp only [execute, he]
  · intro addr nc ab sg ha hn hb hg hv
    subst ha
    subst hn
    subst hb
    subst hg
    constructor
    · intro hrec
      simp only [execute, hv, hrec]
    · intro signer hrec hperm
      simp only [execute, hv, hrec, hperm, Bool.false_eq_true, if_false]

/-- External environment used by the C8 witness. -/
def wEnv : ExecEnv :=
  { recovered := some "S", hasPermission := fun _ _ => false,
    estimatedGas := some 5, nonceValue := some 1, onChainCount := 0,
    walletAddress := "R", hash := "h" }

/-- C8 witness: a request with a missing address is rejected with the
address `ArgumentError` and the store is unchanged; a well-formed request
whose signer lacks permission is rejected as unauthorized with the store
unchanged. -/
theorem execute_rejects_before_any_mutation_witness :
    execute sStore1 wEnv none (some "1") (some "ab") (some "sg") =
      (sStore1, Except.error (RelayerError.argumentError "address must be present")) ∧
    execute sStore1 wEnv (some "B") (some "1") (some "ab") (some "sg") =
      (sStore1, Except.error RelayerError.unauthorized) :=
  ⟨(execute_rejects_before_any_mutation sStore1 wEnv none (some "1") (some "ab") (some "sg")).1
      _ rfl,
   ((execute_rejects_before_any_mutation sStore1 wEnv (some "B") (some "1") (some "ab")
        (some "sg")).2 "B" "1" "ab" "sg" rfl rfl rfl rfl rfl).2 "S" rfl rfl⟩

lemma scanApproved_missing (s : Store) (g : Int) :
    ∀ (l : List ApprovedQuota) (cur : Quota), scanHitsMissingApprover s g l = true →
      scanApproved s g cur l = Except.error RelayerError.typeError := by
  intro l
  induction l with
  | nil =>
    intro cur h
    simp [scanHitsMissingApprover] at h
  | cons aq rest ih =>
    intro cur h
    simp only [scanHitsMissingApprover] at h
    simp only [scanApproved]
    by_cases h1 : aq.gas_used + g ≥ aq.monthly_gas
    · rw [if_pos h1] at h ⊢
      exact ih cur h
    · rw [if_neg h1] at h ⊢
      cases hf : findQuota s.quotas aq.approver_address with
      | none => rfl
      | some p =>
        rw [hf] at h
        dsimp only at h
        by_cases h2 : p.gas_used + g ≤ p.monthly_gas
        · rw [if_pos h2] at h
          cases h
        · rw [if_neg h2] at h
          dsimp only
          rw [if_neg h2]
          exact ih p h

/-- C10: when the profile's own quota lacks headroom and the delegation scan
reaches a coverable delegation whose approver has no quota row, the resolver
fails with the runtime null-dereference failure (surfaced generically), not
with `QuotaExceeded`, and creates no quota row for the approver (the error
leaves the store untouched). -/
theorem missing_approver_generic_failure (s : Store) (g : Int) (addr : String)
    (q : Quota) (hq : findQuota s.quotas addr = some q)
    (hno : ¬(q.gas_used + g ≤ q.monthly_gas))
    (hreach : scanHitsMissingApprover s g (delegationsTo s addr) = true) :
    ensureRemainingQuota s g addr = Except.error RelayerError.typeError ∧
    RelayerError.typeError ≠ RelayerError.noGasError "gas limit reached" := by
  refine ⟨?_, by decide⟩
  simp only [ensureRemainingQuota, hq]
  rw [if_neg hno]
  have hne : ¬(delegationsTo s addr).isEmpty = true := by
    cases hl : delegationsTo s addr with
    | nil =>
      rw [hl] at hreach
      simp [scanHitsMissingApprover] at hreach
    | cons a t => simp
  rw [if_neg hne, scanApproved_missing s g (delegationsTo s addr) q hreach]

/-- Store of the C10 witness: B's quota is exhausted, one coverable
delegation from "A" exists, and "A" has no quota row. -/
def c10Store : Store :=
  { universal_profiles := ["B"],
    quotas := [ { id := 2, universal_profile_address := "B", monthly_gas := 100, gas_used := 100 } ],
    approved_quotas := [ { id := 7, approver_address := "A", approved_address := "B",
                           monthly_gas := 50, gas_used := 10 } ],
    transactions := [] }

/-- C10 witness: on `c10Store` with estimate 5, the resolver fails with the
null-dereference failure rather than `QuotaExceeded`. -/
theorem missing_approver_generic_failure_witness :
    ensureRemainingQuota c10Store 5 "B" = Except.error RelayerError.typeError ∧
    RelayerError.typeError ≠ RelayerError.noGasError "gas limit reached" :=
  missing_approver_generic_failure c10Store 5 "B"
    { id := 2, universal_profile_address := "B", monthly_gas := 100, gas_used := 100 }
    rfl (by decide) rfl
